import Mathlib

/-!
Verification of the email-security analyzer core of `backend-free-tools`.

The JavaScript sources under `src/services/` (dmarcService.js, spfService.js,
dkimService.js, mxService.js, emailSecurityService.js) are shallowly embedded
below.  Numbers are modelled as `ℚ` (all arithmetic in the sources is exact
decimal arithmetic on small values), JavaScript strings as `String`/`List Char`,
absent object fields as `Option`, thrown exceptions / rejected promises as
`Except String`.  The DNS resolver and the `mailauth` verifier are external
collaborators and enter as explicit inputs of the analyzer functions.
-/

/-! ## JavaScript primitive operations -/

/-- Whitespace class of JavaScript `\s` restricted to the ASCII range. -/
def jsWhitespace (c : Char) : Bool :=
  c = ' ' || c = '\t' || c = '\n' || c = '\r' || c = '\x0b' || c = '\x0c'

/-- Model of `str.replace(/\s+/g, '')`: delete every whitespace character. -/
def stripWs (cs : List Char) : List Char :=
  cs.filter (fun c => !jsWhitespace c)

/-- Model of JavaScript `String.prototype.split` with a one-character
separator: split into the (possibly empty) groups between separators. -/
def splitOnChar (sep : Char) : List Char → List (List Char)
  | [] => [[]]
  | c :: cs =>
    match splitOnChar sep cs with
    | [] => [[c]]
    | g :: gs => if c = sep then [] :: g :: gs else (c :: g) :: gs

/-- Model of JavaScript `Math.round`: round half away from minus infinity
(`Rat.floor` is used so the definition evaluates inside the kernel). -/
def jsRound (q : ℚ) : ℤ := (q + 1/2).floor

/-- Model of `Math.round(q * 10) / 10`: round to one decimal place. -/
def round1 (q : ℚ) : ℚ := (jsRound (q * 10) : ℚ) / 10

/-- Value of one digit character for `parseInt`, hexadecimal digits included. -/
def digitVal (c : Char) : Option ℕ :=
  if c.isDigit then some (c.toNat - 48)
  else if 'a' ≤ c && c ≤ 'f' then some (c.toNat - 87)
  else if 'A' ≤ c && c ≤ 'F' then some (c.toNat - 55)
  else none

/-- The maximal prefix of digits valid in the given radix. -/
def takeDigits (radix : ℕ) (cs : List Char) : List ℕ :=
  (cs.takeWhile (fun c =>
    match digitVal c with
    | some d => d < radix
    | none => false)).filterMap digitVal

/-- Model of JavaScript `parseInt(s)` (no explicit radix): skip leading
whitespace, optional sign, auto-detected `0x` hexadecimal prefix, then the
maximal digit prefix; `none` models `NaN`. -/
def jsParseInt (s : String) : Option ℤ :=
  let cs := s.toList.dropWhile jsWhitespace
  let sign : ℤ × List Char :=
    match cs with
    | '-' :: rest => (-1, rest)
    | '+' :: rest => (1, rest)
    | _ => (1, cs)
  let radix : ℕ × List Char :=
    match sign.2 with
    | '0' :: 'x' :: rest => (16, rest)
    | '0' :: 'X' :: rest => (16, rest)
    | _ => (10, sign.2)
  match takeDigits radix.1 radix.2 with
  | [] => none
  | ds => some (sign.1 * (ds.foldl (fun a d => a * radix.1 + d) 0 : ℕ))

/-- Model of `parseInt(v) || d`: `NaN` and `0` (both falsy) fall back to `d`. -/
def jsIntOr (o : Option ℤ) (d : ℤ) : ℤ :=
  match o with
  | some n => if n = 0 then d else n
  | none => d

/-- Model of `s || d` for an optional string: `undefined` and `''` are falsy. -/
def jsStrOr (o : Option String) (d : String) : String :=
  match o with
  | some s => if s = "" then d else s
  | none => d

/-- Truthiness of an optional string (`undefined` and `''` are falsy). -/
def jsStrTruthy (o : Option String) : Bool :=
  match o with
  | some s => s ≠ ""
  | none => false

/-- Model of `xs?.length` used as a condition: list present and non-empty. -/
def jsListTruthy (o : Option (List String)) : Bool :=
  match o with
  | some (_ :: _) => true
  | _ => false

/-- Model of JavaScript `String.prototype.includes`: substring test. -/
def jsIncludes (s pat : String) : Bool := decide (pat.toList <:+: s.toList)

/-- Model of JavaScript `String.prototype.startsWith`: prefix test. -/
def jsStartsWith (s pat : String) : Bool := decide (pat.toList <+: s.toList)

/-- Model of JavaScript `String.prototype.trim` on a character list. -/
def jsTrim (cs : List Char) : List Char :=
  ((cs.dropWhile jsWhitespace).reverse.dropWhile jsWhitespace).reverse

/-! ## Shared result shapes -/

/-- The `score` object every analyzer returns (`details` is absent on some
early-return paths of the sources, hence an `Option`). -/
structure ScoreBreakdown where
  value : ℚ
  outOf : ℚ
  level : String
  details : Option (List String) := none
deriving Repr, DecidableEq

/-- Shape of a `mailauth` verifier status object. -/
structure MailauthStatus where
  result : Option String := none
deriving Repr, DecidableEq

/-- Shape of a `mailauth` verifier result, an external collaborator value. -/
structure MailauthResult where
  status : Option MailauthStatus := none
  info : Option String := none
deriving Repr, DecidableEq

/-! ## DMARC service (src/services/dmarcService.js) -/

/-- The object built by `customDMARCParse` / `dmarc-parse`: the known DMARC
tags as fields, every unknown tag in `other` (insertion order kept). -/
structure DMARCParsed where
  v : Option String := none
  p : Option String := none
  sp : Option String := none
  adkim : Option String := none
  aspf : Option String := none
  pct : Option ℤ := none
  fo : Option String := none
  rf : Option String := none
  ri : Option ℤ := none
  rua : Option (List String) := none
  ruf : Option (List String) := none
  other : List (String × String) := []
deriving Repr, DecidableEq

/-- Assignment `result[key] = value` for an unknown tag: overwrite an existing
key, otherwise append. -/
def setOther (others : List (String × String)) (k v : String) : List (String × String) :=
  if others.any (fun p => p.1 = k) then
    others.map (fun p => if p.1 = k then (k, v) else p)
  else others ++ [(k, v)]

/-- One iteration of the `for (const part of parts)` loop of
`customDMARCParse` (dmarcService.js lines 90-132): split the segment on `=`
keeping the first two fields (`part.split('=', 2)`), guard `if (key && value)`,
then the `switch` on the lower-cased key.  The default arm stores the
original-case key. -/
def dmarcTagStep (acc : DMARCParsed) (part : List Char) : DMARCParsed :=
  match (splitOnChar '=' part).take 2 with
  | [k, vl] =>
    let key := String.mk k
    let value := String.mk vl
    if key ≠ "" ∧ value ≠ "" then
      match String.mk (k.map Char.toLower) with
      | "v" => { acc with v := some value }
      | "p" => { acc with p := some value }
      | "sp" => { acc with sp := some value }
      | "adkim" => { acc with adkim := some value }
      | "aspf" => { acc with aspf := some value }
      | "pct" => { acc with pct := some (jsIntOr (jsParseInt value) 100) }
      | "fo" => { acc with fo := some value }
      | "rf" => { acc with rf := some value }
      | "ri" => { acc with ri := some (jsIntOr (jsParseInt value) 86400) }
      | "rua" => { acc with rua := some ((splitOnChar ',' vl).map (fun a => String.mk (jsTrim a))) }
      | "ruf" => { acc with ruf := some ((splitOnChar ',' vl).map (fun a => String.mk (jsTrim a))) }
      | _ => { acc with other := setOther acc.other key value }
    else acc
  | _ => acc

/-- `customDMARCParse` (dmarcService.js lines 84-135): strip all whitespace,
split on `;`, drop empty segments, process each segment in order. -/
def customDMARCParse (record : String) : DMARCParsed :=
  let parts := (splitOnChar ';' (stripWs record.toList)).filter (fun p => p.length > 0)
  parts.foldl dmarcTagStep {}

/-- `parseDMARC` (dmarcService.js lines 59-82).  The `dmarc-parse` library is
an external collaborator (not part of the repository); its outcome on the
record enters as the `libResult` input: an exception or an empty/`v`-less
object triggers the fallback to `customDMARCParse`.  The final validation
throws (models as `.error`) when `v` is missing or lacks `DMARC1`. -/
def parseDMARC (libResult : Except String DMARCParsed) (record : String) :
    Except String DMARCParsed :=
  let parsed :=
    match libResult with
    | .ok p => if p.v = none ∨ p.v = some "" then customDMARCParse record else p
    | .error _ => customDMARCParse record
  match parsed.v with
  | some v =>
    if jsIncludes v "DMARC1" then .ok parsed
    else .error "Invalid DMARC record: missing or incorrect version"
  | none => .error "Invalid DMARC record: missing or incorrect version"

/-- Reference segment step following the amended claim C4 description: the key
is the text before the first `=`, the value is the text between the first and
second `=` (anything after a second `=` is discarded), the guard requires both
non-empty, the dispatch is on the lower-cased key, and an unknown key is
stored with its original case. -/
def refDMARCTagStep (acc : DMARCParsed) (part : List Char) : DMARCParsed :=
  let k := part.takeWhile (fun c => c ≠ '=')
  let vl := ((part.dropWhile (fun c => c ≠ '=')).tail).takeWhile (fun c => c ≠ '=')
  let key := String.mk k
  let value := String.mk vl
  if key ≠ "" ∧ value ≠ "" then
    match String.mk (k.map Char.toLower) with
    | "v" => { acc with v := some value }
    | "p" => { acc with p := some value }
    | "sp" => { acc with sp := some value }
    | "adkim" => { acc with adkim := some value }
    | "aspf" => { acc with aspf := some value }
    | "pct" => { acc with pct := some (jsIntOr (jsParseInt value) 100) }
    | "fo" => { acc with fo := some value }
    | "rf" => { acc with rf := some value }
    | "ri" => { acc with ri := some (jsIntOr (jsParseInt value) 86400) }
    | "rua" => { acc with rua := some ((splitOnChar ',' vl).map (fun a => String.mk (jsTrim a))) }
    | "ruf" => { acc with ruf := some ((splitOnChar ',' vl).map (fun a => String.mk (jsTrim a))) }
    | _ => { acc with other := setOther acc.other key value }
  else acc

/-- Reference parser following the amended claim C4 description: strip all
whitespace, split on `;`, discard empty segments, process the segments in
order with `refDMARCTagStep`. -/
def refCustomDMARCParse (record : String) : DMARCParsed :=
  ((splitOnChar ';' (stripWs record.toList)).filter (fun p => p ≠ [])).foldl refDMARCTagStep {}

/-- Mutable accumulator of `enrichDMARC`'s scoring phase: `score.base`,
`score.details`, `warnings`, `recommendations`. -/
structure EnrichAcc where
  base : ℚ := 0
  details : List String := []
  warnings : List String := []
  recommendations : List String := []
deriving Repr, DecidableEq

/-- The fixed `explanations` object of `enrichDMARC`. -/
structure DMARCExplanations where
  v : String
  p : String
  rua : String
  ruf : String
  adkim : String
  aspf : String
  sp : String
  pct : String
  fo : String
  ri : String
deriving Repr, DecidableEq

/-- The object `enrichDMARC` returns. -/
structure DMARCAnalysis where
  parsed : DMARCParsed
  explanations : DMARCExplanations
  warnings : List String
  recommendations : List String
  score : ScoreBreakdown
deriving Repr, DecidableEq

/-- Display of an optional value inside a template literal: JavaScript prints
`undefined` for an absent field. -/
def jsShow (o : Option String) : String :=
  match o with
  | some s => s
  | none => "undefined"

/-- `enrichDMARC` (dmarcService.js lines 137-289): additive scoring of the
parsed tags, warning/recommendation collection, tag explanations, clamp of the
base score to [0, 10] and the level step function. -/
def enrichDMARC (result : DMARCParsed) (dmarcResult : Option MailauthResult) :
    DMARCAnalysis :=
  -- Policy scoring and analysis
  let s1 : EnrichAcc :=
    match result.p with
    | some "reject" =>
      { base := 5, details := ["Strong policy: reject (+5 points)"] }
    | some "quarantine" =>
      { base := 3, details := ["Moderate policy: quarantine (+3 points)"],
        recommendations := ["Consider upgrading to \"p=reject\" for maximum security"] }
    | some "none" =>
      { base := 0,
        warnings := ["Policy \"p=none\" offers no protection. Consider \"quarantine\" or \"reject\"."],
        recommendations := ["Start with \"p=quarantine\" and monitor reports before moving to \"p=reject\""] }
    | _ =>
      { base := -2,
        warnings := ["Unknown or missing policy: " ++ jsStrOr result.p "undefined"] }
  -- Reporting configuration
  let s2 :=
    if jsListTruthy result.rua then
      { s1 with base := s1.base + 1,
                details := s1.details ++ ["Aggregate reports configured (+1 point)"] }
    else
      { s1 with
        warnings := s1.warnings ++
          ["No rua tag configured – you will not receive aggregate reports."],
        recommendations := s1.recommendations ++
          ["Add rua=mailto:dmarc-reports@yourdomain.com to receive aggregate reports"] }
  let s3 :=
    if jsListTruthy result.ruf then
      { s2 with base := s2.base + 1,
                details := s2.details ++ ["Forensic reports configured (+1 point)"] }
    else
      { s2 with recommendations := s2.recommendations ++
          ["Consider adding ruf=mailto:dmarc-forensic@yourdomain.com for detailed failure reports"] }
  -- Subdomain policy
  let s4 :=
    if jsStrTruthy result.sp then
      let sa := { s3 with base := s3.base + 1,
                          details := s3.details ++ ["Subdomain policy defined (+1 point)"] }
      if result.sp = some "reject" then
        { sa with base := sa.base + 0.5,
                  details := sa.details ++ ["Strong subdomain policy (+0.5 points)"] }
      else sa
    else
      { s3 with recommendations := s3.recommendations ++
          ["Consider adding sp= to explicitly define subdomain policy"] }
  -- Coverage percentage
  let pct := jsIntOr result.pct 100
  let s5 :=
    if pct < 100 then
      let sa := { s4 with
        warnings := s4.warnings ++
          ["Only " ++ toString pct ++ "% of mail is subject to DMARC policy."],
        base := s4.base - (100 - (pct : ℚ)) / 50 }
      if pct < 50 then
        { sa with warnings := sa.warnings ++
            ["Very low policy coverage - consider increasing pct value"] }
      else sa
    else
      { s4 with base := s4.base + 0.5,
                details := s4.details ++ ["Full policy coverage (+0.5 points)"] }
  -- Alignment modes
  let s6 :=
    if result.adkim = some "s" then
      { s5 with base := s5.base + 0.5,
                details := s5.details ++ ["Strict DKIM alignment (+0.5 points)"] }
    else s5
  let s7 :=
    if result.aspf = some "s" then
      { s6 with base := s6.base + 0.5,
                details := s6.details ++ ["Strict SPF alignment (+0.5 points)"] }
    else s6
  -- Add mailauth analysis if available
  let s8 :=
    match dmarcResult with
    | some mr =>
      let sa :=
        match mr.status with
        | some st =>
          if jsStrTruthy st.result then
            { s7 with details := s7.details ++
                ["Mailauth DMARC check: " ++ jsShow st.result] }
          else s7
        | none => s7
      if jsStrTruthy mr.info then
        { sa with details := sa.details ++ ["DMARC info: " ++ jsShow mr.info] }
      else sa
    | none => s7
  -- Generate explanations
  let explanations : DMARCExplanations :=
    { v := "DMARC version: " ++ jsShow result.v
      p :=
        match result.p with
        | some "none" => "No enforcement – just monitor and collect reports"
        | some "quarantine" => "Suspicious emails are sent to spam/junk folder"
        | some "reject" => "Unauthenticated emails are completely blocked"
        | o => "Unknown policy: " ++ jsShow o
      rua :=
        if jsListTruthy result.rua then
          "Aggregate reports will be sent to: " ++
            String.intercalate ", " ((result.rua).getD [])
        else "No aggregate report address configured"
      ruf :=
        if jsListTruthy result.ruf then
          "Forensic reports will be sent to: " ++
            String.intercalate ", " ((result.ruf).getD [])
        else "No forensic report address configured"
      adkim :=
        if jsStrTruthy result.adkim then
          "DKIM alignment: " ++ (if result.adkim = some "s" then "strict" else "relaxed")
        else "DKIM alignment: relaxed (default)"
      aspf :=
        if jsStrTruthy result.aspf then
          "SPF alignment: " ++ (if result.aspf = some "s" then "strict" else "relaxed")
        else "SPF alignment: relaxed (default)"
      sp :=
        if jsStrTruthy result.sp then "Subdomain policy: " ++ jsShow result.sp
        else "Subdomain policy: inherits from main policy"
      pct := toString pct ++ "% of emails are subject to this DMARC policy"
      fo :=
        if jsStrTruthy result.fo then "Failure reporting options: " ++ jsShow result.fo
        else "Failure reporting: default (any failure)"
      ri :=
        match result.ri with
        | some r =>
          if r = 0 then "Report interval: 86400 seconds (1 day, default)"
          else
            "Report interval: " ++ toString r ++ " seconds (" ++
              toString (jsRound ((r : ℚ) / 86400)) ++ " days)"
        | none => "Report interval: 86400 seconds (1 day, default)" }
  -- Security level assessment
  let finalScore : ℚ := max (min s8.base 10) 0
  let securityLevel :=
    if finalScore ≥ 8 then "Excellent"
    else if finalScore ≥ 6 then "Good"
    else if finalScore ≥ 4 then "Fair"
    else "Poor"
  { parsed := result
    explanations := explanations
    warnings := s8.warnings
    recommendations := s8.recommendations
    score :=
      { value := round1 finalScore
        outOf := 10
        level := securityLevel
        details := some s8.details } }

/-- Result envelope of `analyzeDMARC`; absent fields are `none` (the success
branch spreads the `enrichDMARC` output into the envelope). -/
structure DMARCResult where
  success : Bool
  domain : Option String := none
  error : Option String := none
  checkedRecord : Option String := none
  rawRecord : Option String := none
  dmarcResult : Option MailauthResult := none
  parsed : Option DMARCParsed := none
  explanations : Option DMARCExplanations := none
  warnings : Option (List String) := none
  recommendations : Option (List String) := none
  score : Option ScoreBreakdown := none
deriving Repr, DecidableEq

/-- `analyzeDMARC` (dmarcService.js lines 11-55).  `dns` is the outcome of
`resolver.resolveTxt`, `libResult` the `dmarc-parse` collaborator outcome on
the found record, `verifier` the `mailauth.dmarc.verify` outcome (its failure
is caught and logged, analysis continues without it).  The outer `catch`
returns `success:false` with the thrown message. -/
def analyzeDMARC (domain : String) (dns : Except String (List (List String)))
    (libResult : Except String DMARCParsed)
    (verifier : Except String MailauthResult) : DMARCResult :=
  match dns with
  | .error e => { success := false, error := some e, domain := some domain }
  | .ok txtRecords =>
    let flatRecords := txtRecords.map (fun entry => String.join entry)
    match flatRecords.find? (fun txt => jsStartsWith txt "v=DMARC1") with
    | none =>
      { success := false, error := some "DMARC record not found",
        domain := some domain, checkedRecord := some ("_dmarc." ++ domain) }
    | some dmarcRecord =>
      let dmarcResult : Option MailauthResult :=
        match verifier with
        | .ok r => some r
        | .error _ => none
      match parseDMARC libResult dmarcRecord with
      | .error msg =>
        { success := false, error := some msg, domain := some domain }
      | .ok parsed =>
        let analysis := enrichDMARC parsed dmarcResult
        { success := true
          domain := some domain
          checkedRecord := some ("_dmarc." ++ domain)
          rawRecord := some dmarcRecord
          dmarcResult := dmarcResult
          parsed := some analysis.parsed
          explanations := some analysis.explanations
          warnings := some analysis.warnings
          recommendations := some analysis.recommendations
          score := some analysis.score }

/-! ## SPF service (src/services/spfService.js) -/

/-- The object `analyzeSPFRecord` returns (`parsed` is absent on the
invalid-format early return). -/
structure SPFAnalysis where
  parsed : Option (List String) := none
  warnings : List String
  recommendations : List String
  score : ScoreBreakdown
deriving Repr, DecidableEq

/-- `analyzeSPFRecord` (spfService.js lines 59-127): format check, mechanism
extraction by single-space split, additive scoring with clamp to [0, 5] and the
level step function. -/
def analyzeSPFRecord (record : String) (spfResult : Option MailauthResult) :
    SPFAnalysis :=
  if !jsStartsWith record "v=spf1" then
    { warnings := ["Invalid SPF record format"], recommendations := [],
      score := { value := 0, outOf := 5, level := "Poor" } }
  else
    let s1 : EnrichAcc := { base := 1, details := ["Valid SPF record format (+1 point)"] }
    -- Check for mechanisms
    let mechanisms :=
      ((splitOnChar ' ' record.toList).map String.mk).filter (fun part => part ≠ "v=spf1")
    let s2 :=
      if mechanisms.any (fun m => jsStartsWith m "include:") then
        { s1 with base := s1.base + 1,
                  details := s1.details ++ ["Uses include mechanism (+1 point)"] }
      else s1
    let s3 :=
      if mechanisms.any (fun m => jsStartsWith m "a" || jsStartsWith m "mx") then
        { s2 with base := s2.base + 1,
                  details := s2.details ++ ["Uses a/mx mechanism (+1 point)"] }
      else s2
    -- Check for proper ending
    let ending := mechanisms.getLast?
    let s4 :=
      if ending = some "~all" then
        { s3 with base := s3.base + 1.5,
                  details := s3.details ++ ["Soft fail policy (~all) (+1.5 points)"] }
      else if ending = some "-all" then
        { s3 with base := s3.base + 2,
                  details := s3.details ++ ["Hard fail policy (-all) (+2 points)"] }
      else if ending = some "?all" then
        { s3 with base := s3.base + 0.5,
                  details := s3.details ++ ["Neutral policy (?all) (+0.5 points)"],
                  recommendations := s3.recommendations ++
                    ["Consider using ~all or -all for better security"] }
      else
        { s3 with
          warnings := s3.warnings ++ ["SPF record should end with an \"all\" mechanism"],
          recommendations := s3.recommendations ++
            ["Add ~all or -all at the end of your SPF record"] }
    -- Add mailauth analysis if available
    let s5 :=
      match spfResult with
      | some mr =>
        match mr.status with
        | some st =>
          if jsStrTruthy st.result then
            { s4 with details := s4.details ++
                ["Mailauth SPF check: " ++ jsShow st.result] }
          else s4
        | none => s4
      | none => s4
    let finalScore : ℚ := max (min s5.base 5) 0
    let securityLevel :=
      if finalScore ≥ 4 then "Excellent"
      else if finalScore ≥ 3 then "Good"
      else if finalScore ≥ 2 then "Fair"
      else "Poor"
    { parsed := some mechanisms
      warnings := s5.warnings
      recommendations := s5.recommendations
      score :=
        { value := round1 finalScore
          outOf := 5
          level := securityLevel
          details := some s5.details } }

/-- Result envelope of `analyzeSPF`. -/
structure SPFResult where
  success : Bool
  domain : Option String := none
  error : Option String := none
  rawRecord : Option String := none
  mailauthResult : Option MailauthResult := none
  parsed : Option (List String) := none
  warnings : Option (List String) := none
  recommendations : Option (List String) := none
  score : Option ScoreBreakdown := none
deriving Repr, DecidableEq

/-- `analyzeSPF` (spfService.js lines 10-57): find the first TXT record
starting with `v=spf1`; not found and thrown DNS errors map to
`success:false`; the `mailauth.authenticate` outcome is advisory only. -/
def analyzeSPF (domain : String) (dns : Except String (List (List String)))
    (verifier : Except String MailauthResult) : SPFResult :=
  match dns with
  | .error e => { success := false, error := some e, domain := some domain }
  | .ok txtRecords =>
    let flatRecords := txtRecords.map (fun entry => String.join entry)
    match flatRecords.find? (fun txt => jsStartsWith txt "v=spf1") with
    | none =>
      { success := false, error := some "SPF record not found",
        domain := some domain,
        recommendations := some
          ["Add an SPF record to your domain to specify which mail servers are authorized to send emails",
           "Example: \"v=spf1 include:_spf.google.com ~all\" for Google Workspace"] }
    | some spfRecord =>
      let mailauthResult : Option MailauthResult :=
        match verifier with
        | .ok r => some r
        | .error _ => none
      let analysis := analyzeSPFRecord spfRecord mailauthResult
      { success := true
        domain := some domain
        rawRecord := some spfRecord
        mailauthResult := mailauthResult
        parsed := analysis.parsed
        warnings := some analysis.warnings
        recommendations := some analysis.recommendations
        score := some analysis.score }

/-! ## DKIM service (src/services/dkimService.js) -/

/-- The object `analyzeDKIMRecord` returns. -/
structure DKIMAnalysis where
  warnings : List String
  recommendations : List String
  score : ScoreBreakdown
deriving Repr, DecidableEq

/-- `analyzeDKIMRecord` (dkimService.js lines 82-146): marker validation,
additive scoring with clamp to [0, 5] and the level step function. -/
def analyzeDKIMRecord (record : String) (dkimResult : Option MailauthResult) :
    DKIMAnalysis :=
  if !jsIncludes record "v=DKIM1" && !jsIncludes record "k=rsa" &&
      !jsIncludes record "p=" then
    { warnings := ["Invalid DKIM record format"], recommendations := [],
      score := { value := 0, outOf := 5, level := "Poor" } }
  else
    let s1 : EnrichAcc := { base := 1, details := ["Valid DKIM record found (+1 point)"] }
    -- Check for public key
    let s2 :=
      if jsIncludes record "p=" && !jsIncludes record "p=;" then
        { s1 with base := s1.base + 2,
                  details := s1.details ++ ["Public key present (+2 points)"] }
      else
        { s1 with warnings := s1.warnings ++ ["No public key found in DKIM record"] }
    -- Check key type
    let s3 :=
      if jsIncludes record "k=rsa" then
        { s2 with base := s2.base + 1,
                  details := s2.details ++ ["RSA key type (+1 point)"] }
      else s2
    -- Check for hash algorithms
    let s4 :=
      if jsIncludes record "h=sha256" then
        { s3 with base := s3.base + 1,
                  details := s3.details ++ ["SHA-256 hash algorithm (+1 point)"] }
      else if jsIncludes record "h=sha1" then
        { s3 with base := s3.base + 0.5,
                  details := s3.details ++ ["SHA-1 hash algorithm (+0.5 points)"],
                  recommendations := s3.recommendations ++
                    ["Consider upgrading to SHA-256 for better security"] }
      else s3
    -- Add mailauth analysis if available
    let s5 :=
      match dkimResult with
      | some mr =>
        let sa :=
          match mr.status with
          | some st =>
            if jsStrTruthy st.result then
              { s4 with details := s4.details ++
                  ["Mailauth DKIM check: " ++ jsShow st.result] }
            else s4
          | none => s4
        if jsStrTruthy mr.info then
          { sa with details := sa.details ++ ["DKIM info: " ++ jsShow mr.info] }
        else sa
      | none => s4
    let finalScore : ℚ := max (min s5.base 5) 0
    let securityLevel :=
      if finalScore ≥ 4 then "Excellent"
      else if finalScore ≥ 3 then "Good"
      else if finalScore ≥ 2 then "Fair"
      else "Poor"
    { warnings := s5.warnings
      recommendations := s5.recommendations
      score :=
        { value := round1 finalScore
          outOf := 5
          level := securityLevel
          details := some s5.details } }

/-- Result envelope of `analyzeDKIM`. -/
structure DKIMResult where
  success : Bool
  domain : Option String := none
  selector : Option String := none
  error : Option String := none
  checkedRecord : Option String := none
  rawRecord : Option String := none
  mailauthResult : Option MailauthResult := none
  warnings : Option (List String) := none
  recommendations : Option (List String) := none
  score : Option ScoreBreakdown := none
deriving Repr, DecidableEq

/-- `analyzeDKIM` (dkimService.js lines 10-80).  The inner `catch (dnsError)`
replaces a thrown DNS lookup with the selector-not-found message (the
underlying message is dropped); a found record missing all three markers also
maps to that message with different recommendations. -/
def analyzeDKIM (domain selector : String)
    (dns : Except String (List (List String)))
    (verifier : Except String MailauthResult) : DKIMResult :=
  let dkimRecord := selector ++ "._domainkey." ++ domain
  match dns with
  | .error _ =>
    { success := false,
      error := some ("DKIM record not found for selector '" ++ selector ++ "'"),
      domain := some domain, selector := some selector,
      checkedRecord := some dkimRecord,
      recommendations := some
        ["Try common selectors: default, google, mail, dkim, selector1, selector2",
         "Check with your email provider for the correct DKIM selector",
         "Ensure DKIM is properly configured in your DNS"] }
  | .ok txtRecords =>
    let flatRecords := txtRecords.map (fun entry => String.join entry)
    match flatRecords.find? (fun txt =>
        jsIncludes txt "v=DKIM1" || jsIncludes txt "k=rsa" || jsIncludes txt "p=") with
    | none =>
      { success := false,
        error := some ("DKIM record not found for selector '" ++ selector ++ "'"),
        domain := some domain, selector := some selector,
        checkedRecord := some dkimRecord,
        recommendations := some
          ["Set up DKIM signing for your domain",
           "Common selectors to try: default, google, mail, dkim",
           "Contact your email provider for DKIM setup instructions"] }
    | some dkimKey =>
      let mailauthResult : Option MailauthResult :=
        match verifier with
        | .ok r => some r
        | .error _ => none
      let analysis := analyzeDKIMRecord dkimKey mailauthResult
      { success := true
        domain := some domain
        selector := some selector
        checkedRecord := some dkimRecord
        rawRecord := some dkimKey
        mailauthResult := mailauthResult
        warnings := some analysis.warnings
        recommendations := some analysis.recommendations
        score := some analysis.score }

/-! ## MX service (src/services/mxService.js) -/

/-- One `dns.resolveMx` answer entry. -/
structure MXRecord where
  exchange : String
  priority : ℤ
deriving Repr, DecidableEq

/-- The object `analyzeMXRecords` returns. -/
structure MXAnalysis where
  warnings : List String
  recommendations : List String
  score : ScoreBreakdown
deriving Repr, DecidableEq

/-- `analyzeMXRecords` (mxService.js lines 45-92): presence, redundancy and
distinct-priority points with clamp to [0, 3] and the level step function
(`[...new Set(priorities)]` is the deduplicated priority list). -/
def analyzeMXRecords (records : List MXRecord) : MXAnalysis :=
  if records.length = 0 then
    { warnings := ["No MX records found"], recommendations := [],
      score := { value := 0, outOf := 3, level := "Poor" } }
  else
    let s1 : EnrichAcc := { base := 1, details := ["MX records present (+1 point)"] }
    let s2 :=
      if records.length ≥ 2 then
        { s1 with base := s1.base + 1,
                  details := s1.details ++ ["Multiple MX records for redundancy (+1 point)"] }
      else
        { s1 with recommendations := s1.recommendations ++
            ["Consider adding backup MX records for redundancy"] }
    -- Check for proper priority configuration
    let priorities := records.map (fun r => r.priority)
    let uniquePriorities := priorities.dedup
    let s3 :=
      if uniquePriorities.length = records.length then
        { s2 with base := s2.base + 1,
                  details := s2.details ++ ["Proper priority configuration (+1 point)"] }
      else
        { s2 with warnings := s2.warnings ++ ["Some MX records have the same priority"] }
    let finalScore : ℚ := max (min s3.base 3) 0
    let securityLevel :=
      if finalScore ≥ 2.5 then "Excellent"
      else if finalScore ≥ 2 then "Good"
      else if finalScore ≥ 1 then "Fair"
      else "Poor"
    { warnings := s3.warnings
      recommendations := s3.recommendations
      score :=
        { value := round1 finalScore
          outOf := 3
          level := securityLevel
          details := some s3.details } }

/-- Result envelope of `analyzeMX`. -/
structure MXResult where
  success : Bool
  domain : Option String := none
  error : Option String := none
  records : Option (List MXRecord) := none
  warnings : Option (List String) := none
  recommendations : Option (List String) := none
  score : Option ScoreBreakdown := none
deriving Repr, DecidableEq

/-- `analyzeMX` (mxService.js lines 9-43): empty answer maps to
`success:false` with guidance, otherwise the records are sorted ascending by
priority (stable, as the JavaScript engine sort) before scoring. -/
def analyzeMX (domain : String) (dns : Except String (List MXRecord)) : MXResult :=
  match dns with
  | .error e => { success := false, error := some e, domain := some domain }
  | .ok mxRecords =>
    if mxRecords.length = 0 then
      { success := false, error := some "No MX records found",
        domain := some domain,
        recommendations := some
          ["Add MX records to enable email delivery to your domain",
           "MX records specify which mail servers handle email for your domain"] }
    else
      let sortedMx := mxRecords.mergeSort (fun a b => a.priority ≤ b.priority)
      let analysis := analyzeMXRecords sortedMx
      { success := true
        domain := some domain
        records := some sortedMx
        warnings := some analysis.warnings
        recommendations := some analysis.recommendations
        score := some analysis.score }

/-! ## Composite analyzer (src/services/emailSecurityService.js) -/

/-- The `overallScore` object of the composite result (`details` is absent in
the source, hence `none`: it reuses the `ScoreBreakdown` shape). -/
structure CompositeResult where
  domain : String
  dmarc : DMARCResult
  spf : SPFResult
  dkim : DKIMResult
  mx : MXResult
  overallScore : ScoreBreakdown
deriving Repr, DecidableEq

/-- `Promise.allSettled` fan-in for the DMARC slot (emailSecurityService.js
lines 16-18): a rejected analyzer promise becomes
`{ success: false, error: r.reason.message }`. -/
def settleDMARC : Except String DMARCResult → DMARCResult
  | .ok v => v
  | .error m => { success := false, error := some m }

/-- `Promise.allSettled` fan-in for the SPF slot. -/
def settleSPF : Except String SPFResult → SPFResult
  | .ok v => v
  | .error m => { success := false, error := some m }

/-- `Promise.allSettled` fan-in for the DKIM slot. -/
def settleDKIM : Except String DKIMResult → DKIMResult
  | .ok v => v
  | .error m => { success := false, error := some m }

/-- `Promise.allSettled` fan-in for the MX slot. -/
def settleMX : Except String MXResult → MXResult
  | .ok v => v
  | .error m => { success := false, error := some m }

/-- `analyzeEmailSecurity` (emailSecurityService.js lines 8-62).  Each input
is the settled outcome of the corresponding protocol analyzer call (fulfilled
value or rejection message).  The overall score accumulates `score.value` and
`score.outOf` of every result with `success` and a `score` (the four guarded
`if` statements of lines 24-42), normalizes to a 0-10 scale when `maxScore`
is positive, rounds to one decimal, and maps the unrounded value through the
level step function. -/
def analyzeEmailSecurity (domain : String)
    (rD : Except String DMARCResult) (rS : Except String SPFResult)
    (rK : Except String DKIMResult) (rM : Except String MXResult) :
    CompositeResult :=
  let dmarcResult := settleDMARC rD
  let spfResult := settleSPF rS
  let dkimResult := settleDKIM rK
  let mxResult := settleMX rM
  -- Calculate overall security score
  let acc0 : ℚ × ℚ := (0, 0)
  let acc1 :=
    match dmarcResult.success, dmarcResult.score with
    | true, some s => (acc0.1 + s.value, acc0.2 + s.outOf)
    | _, _ => acc0
  let acc2 :=
    match spfResult.success, spfResult.score with
    | true, some s => (acc1.1 + s.value, acc1.2 + s.outOf)
    | _, _ => acc1
  let acc3 :=
    match dkimResult.success, dkimResult.score with
    | true, some s => (acc2.1 + s.value, acc2.2 + s.outOf)
    | _, _ => acc2
  let acc4 :=
    match mxResult.success, mxResult.score with
    | true, some s => (acc3.1 + s.value, acc3.2 + s.outOf)
    | _, _ => acc3
  let totalScore := acc4.1
  let maxScore := acc4.2
  let overallScore : ℚ := if maxScore > 0 then totalScore / maxScore * 10 else 0
  let securityLevel :=
    if overallScore ≥ 8 then "Excellent"
    else if overallScore ≥ 6 then "Good"
    else if overallScore ≥ 4 then "Fair"
    else "Poor"
  { domain := domain
    dmarc := dmarcResult
    spf := spfResult
    dkim := dkimResult
    mx := mxResult
    overallScore :=
      { value := round1 overallScore
        outOf := 10
        level := securityLevel } }

/-! ## Helper lemmas about rounding and clamping -/

/-- `jsRound` agrees with the mathematical floor of `q + 1/2`. -/
theorem jsRound_eq_floor (q : ℚ) : jsRound q = ⌊q + 1/2⌋ := by
  rw [jsRound, Rat.floor_def', ← Rat.floor_def]

/-- Rounding is monotone below an integer bound. -/
theorem jsRound_le (q : ℚ) (n : ℤ) (h : q ≤ n) : jsRound q ≤ n := by
  rw [jsRound_eq_floor]
  have h1 : ⌊q + 1/2⌋ ≤ ⌊(n : ℚ) + 1/2⌋ := Int.floor_le_floor (by linarith)
  have h2 : ⌊(n : ℚ) + 1/2⌋ = n + ⌊(1/2 : ℚ)⌋ := Int.floor_int_add n (1/2 : ℚ)
  have h3 : ⌊(1/2 : ℚ)⌋ = 0 := by norm_num [Int.floor_eq_zero_iff]
  rw [h2, h3] at h1
  omega

/-- Rounding preserves nonnegativity. -/
theorem jsRound_nonneg (q : ℚ) (h : 0 ≤ q) : 0 ≤ jsRound q := by
  rw [jsRound_eq_floor]
  exact Int.floor_nonneg.mpr (by linarith)

/-- One-decimal rounding preserves nonnegativity. -/
theorem round1_nonneg (q : ℚ) (h : 0 ≤ q) : 0 ≤ round1 q := by
  have := jsRound_nonneg (q * 10) (by linarith)
  have h10 : (0 : ℚ) ≤ (jsRound (q * 10) : ℚ) := by exact_mod_cast this
  unfold round1
  positivity

/-- One-decimal rounding respects a bound that is a multiple of one tenth. -/
theorem round1_le (q : ℚ) (n : ℤ) (h : q * 10 ≤ n) : round1 q ≤ (n : ℚ) / 10 := by
  have := jsRound_le (q * 10) n h
  have hc : (jsRound (q * 10) : ℚ) ≤ (n : ℚ) := by exact_mod_cast this
  unfold round1
  linarith

/-- The clamped-and-rounded score of every analyzer lies within `[0, c]`
whenever the cap `c` is a nonnegative multiple of one tenth. -/
theorem round1_clamp_bounds (b c : ℚ) (n : ℤ) (hc : 0 ≤ c) (hn : c * 10 = n) :
    0 ≤ round1 (max (min b c) 0) ∧ round1 (max (min b c) 0) ≤ c := by
  have hlow : 0 ≤ max (min b c) 0 := le_max_right _ _
  have hhigh : max (min b c) 0 ≤ c := max_le (le_trans (min_le_right _ _) le_rfl) hc
  constructor
  · exact round1_nonneg _ hlow
  · have := round1_le (max (min b c) 0) n (by rw [← hn]; nlinarith)
    calc round1 (max (min b c) 0) ≤ (n : ℚ) / 10 := this
    _ = c := by rw [← hn]; ring

/-- The clamped-and-rounded score respects any bound above the pre-clamp base
score, when the bound is a nonnegative multiple of one tenth. -/
theorem round1_clamp10_le (b t : ℚ) (m : ℤ) (hb : b ≤ t) (ht : 0 ≤ t)
    (hm : t * 10 = m) : round1 (max (min b 10) 0) ≤ t := by
  have h1 : max (min b 10) 0 ≤ t := max_le (le_trans (min_le_left _ _) hb) ht
  have := round1_le (max (min b 10) 0) m (by rw [← hm]; nlinarith)
  calc round1 (max (min b 10) 0) ≤ (m : ℚ) / 10 := this
  _ = t := by rw [← hm]; ring

/-- A falsy-guarded integer fallback is never `0` when the default is not. -/
theorem jsIntOr_ne_zero (o : Option ℤ) (d : ℤ) (hd : d ≠ 0) : jsIntOr o d ≠ 0 := by
  rcases o with _ | n
  · simpa [jsIntOr] using hd
  · by_cases h : n = 0 <;> simp [jsIntOr, h, hd]

/-- A single segment step never stores `pct = 0`: the `parseInt(value) || 100`
fallback maps both `NaN` and `0` to a nonzero value. -/
theorem dmarcTagStep_pct_ne_zero (acc : DMARCParsed) (part : List Char)
    (h : acc.pct ≠ some 0) : (dmarcTagStep acc part).pct ≠ some 0 := by
  unfold dmarcTagStep
  split
  · split <;> (dsimp only; split_ifs) <;>
      simp_all <;> exact jsIntOr_ne_zero _ 100 (by norm_num)
  · exact h

/-- The segment fold never stores `pct = 0`. -/
theorem foldl_dmarcTagStep_pct_ne_zero (parts : List (List Char))
    (acc : DMARCParsed) (h : acc.pct ≠ some 0) :
    (parts.foldl dmarcTagStep acc).pct ≠ some 0 := by
  induction parts generalizing acc with
  | nil => exact h
  | cons p ps ih => exact ih _ (dmarcTagStep_pct_ne_zero acc p h)

/-- Claim C3: for every analyzer (DMARC, SPF, DKIM, MX) and any input record,
including adversarial or extreme tag combinations making the pre-clamp
additive total negative or above the maximum, the returned score satisfies
`0 ≤ value ≤ outOf`. -/
theorem c3_score_within_bounds :
    (∀ (d : DMARCParsed) (mr : Option MailauthResult),
      0 ≤ (enrichDMARC d mr).score.value ∧
      (enrichDMARC d mr).score.value ≤ (enrichDMARC d mr).score.outOf) ∧
    (∀ (r : String) (mr : Option MailauthResult),
      0 ≤ (analyzeSPFRecord r mr).score.value ∧
      (analyzeSPFRecord r mr).score.value ≤ (analyzeSPFRecord r mr).score.outOf) ∧
    (∀ (r : String) (mr : Option MailauthResult),
      0 ≤ (analyzeDKIMRecord r mr).score.value ∧
      (analyzeDKIMRecord r mr).score.value ≤ (analyzeDKIMRecord r mr).score.outOf) ∧
    (∀ rs : List MXRecord,
      0 ≤ (analyzeMXRecords rs).score.value ∧
      (analyzeMXRecords rs).score.value ≤ (analyzeMXRecords rs).score.outOf) := by
  refine ⟨fun d mr => ?_, fun r mr => ?_, fun r mr => ?_, fun rs => ?_⟩
  · simp only [enrichDMARC]
    exact round1_clamp_bounds _ 10 100 (by norm_num) (by norm_num)
  · cases h : jsStartsWith r "v=spf1" <;> simp only [analyzeSPFRecord, h]
    · norm_num
    · exact round1_clamp_bounds _ 5 50 (by norm_num) (by norm_num)
  · cases h1 : jsIncludes r "v=DKIM1" <;> cases h2 : jsIncludes r "k=rsa" <;>
      cases h3 : jsIncludes r "p=" <;> simp only [analyzeDKIMRecord, h1, h2, h3] <;>
      first
        | exact round1_clamp_bounds _ 5 50 (by norm_num) (by norm_num)
        | norm_num
  · cases rs with
    | nil => norm_num [analyzeMXRecords]
    | cons a l =>
      simp only [analyzeMXRecords, List.length_cons]
      have h : ¬(l.length + 1 = 0) := by omega
      rw [if_neg h]
      exact round1_clamp_bounds _ 3 30 (by norm_num) (by norm_num)

/-- Claim C7: scoring the parsed DMARC tags `p=reject, rua=[mailto:a@b.com],
ruf=[mailto:c@d.com], sp=reject, pct=100, adkim=s, aspf=s` yields exactly
10.0 out of 10 with level "Excellent". -/
theorem c7_dmarc_perfect_record_score :
    (enrichDMARC
      { p := some "reject", rua := some ["mailto:a@b.com"],
        ruf := some ["mailto:c@d.com"], sp := some "reject",
        pct := some 100, adkim := some "s", aspf := some "s" } none).score.value = 10 ∧
    (enrichDMARC
      { p := some "reject", rua := some ["mailto:a@b.com"],
        ruf := some ["mailto:c@d.com"], sp := some "reject",
        pct := some 100, adkim := some "s", aspf := some "s" } none).score.outOf = 10 ∧
    (enrichDMARC
      { p := some "reject", rua := some ["mailto:a@b.com"],
        ruf := some ["mailto:c@d.com"], sp := some "reject",
        pct := some 100, adkim := some "s", aspf := some "s" } none).score.level
      = "Excellent" := by
  refine ⟨?_, ?_, ?_⟩ <;>
    simp +decide only [enrichDMARC, jsListTruthy, jsStrTruthy, jsIntOr, jsStrOr] <;>
    norm_num [round1, jsRound_eq_floor]

/-- Claim C8: scoring the SPF record `v=spf1 include:_spf.google.com ~all`
yields exactly 3.5 out of 5 (1 format + 1 include + 1.5 soft fail, no a/mx
point) with level "Good". -/
theorem c8_spf_google_softfail_score :
    (analyzeSPFRecord "v=spf1 include:_spf.google.com ~all" none).score.value = 3.5 ∧
    (analyzeSPFRecord "v=spf1 include:_spf.google.com ~all" none).score.outOf = 5 ∧
    (analyzeSPFRecord "v=spf1 include:_spf.google.com ~all" none).score.level = "Good" ∧
    (analyzeSPFRecord "v=spf1 include:_spf.google.com ~all" none).score.details =
      some ["Valid SPF record format (+1 point)", "Uses include mechanism (+1 point)",
            "Soft fail policy (~all) (+1.5 points)"] := by
  have h0 : jsStartsWith "v=spf1 include:_spf.google.com ~all" "v=spf1" = true := by decide
  have hmech :
      ((splitOnChar ' ' "v=spf1 include:_spf.google.com ~all".toList).map String.mk).filter
        (fun part => part ≠ "v=spf1") = ["include:_spf.google.com", "~all"] := by decide
  have h2 : (["include:_spf.google.com", "~all"] : List String).any
      (fun m => jsStartsWith m "include:") = true := by decide
  have h3 : (["include:_spf.google.com", "~all"] : List String).any
      (fun m => jsStartsWith m "a" || jsStartsWith m "mx") = false := by decide
  have h4 : (["include:_spf.google.com", "~all"] : List String).getLast? = some "~all" := by
    decide
  refine ⟨?_, ?_, ?_, ?_⟩ <;>
    simp +decide only [analyzeSPFRecord, h0, hmech, h2, h3, h4] <;>
    norm_num [round1, jsRound_eq_floor]

/-- Claim C10: `pct=0` is stored as 100 and `ri=0` as 86400 by the custom
parser, and no record whatsoever can make the custom parser store `pct = 0`. -/
theorem c10_pct_zero_defaults :
    (customDMARCParse "v=DMARC1;pct=0;ri=0").pct = some 100 ∧
    (customDMARCParse "v=DMARC1;pct=0;ri=0").ri = some 86400 ∧
    ∀ record : String, (customDMARCParse record).pct ≠ some 0 := by
  refine ⟨by decide, by decide, fun record => ?_⟩
  unfold customDMARCParse
  exact foldl_dmarcTagStep_pct_ne_zero _ _ (by simp)

/-- Claim C1 counterexample: with all four protocols succeeding (score caps
10, 5, 5, 3), the composite result's `overallScore.outOf` is 10, not the sum
23 the claim requires. -/
theorem c1_outOf_counterexample :
    (analyzeEmailSecurity "example.com"
      (.ok { success := true, score := some { value := 10, outOf := 10, level := "Excellent" } })
      (.ok { success := true, score := some { value := 3.5, outOf := 5, level := "Good" } })
      (.ok { success := true, score := some { value := 5, outOf := 5, level := "Excellent" } })
      (.ok { success := true, score := some { value := 3, outOf := 3, level := "Excellent" } })).overallScore.outOf
      = 10 ∧
    (10 : ℚ) ≠ 10 + 5 + 5 + 3 := by
  constructor
  · rfl
  · norm_num

/-- Claim C1 as amended: the composite result's `overallScore.outOf` is the
constant 10 for every combination of per-protocol outcomes; the sum of the
`outOf` of the succeeded protocols is only the internal normalization
denominator. -/
theorem c1_overall_outOf_always_ten (domain : String)
    (rD : Except String DMARCResult) (rS : Except String SPFResult)
    (rK : Except String DKIMResult) (rM : Except String MXResult) :
    (analyzeEmailSecurity domain rD rS rK rM).overallScore.outOf = 10 := rfl

/-- The optional external verifier result only appends detail lines: it never
changes the warnings or the score value of the DMARC analysis. -/
theorem enrichDMARC_verifier_invariant (d : DMARCParsed) (mr : Option MailauthResult) :
    (enrichDMARC d mr).warnings = (enrichDMARC d none).warnings ∧
    (enrichDMARC d mr).score.value = (enrichDMARC d none).score.value := by
  rcases mr with _ | ⟨st, info⟩
  · exact ⟨rfl, rfl⟩
  · rcases st with _ | ⟨r⟩ <;> refine ⟨?_, ?_⟩ <;>
      simp only [enrichDMARC, apply_ite EnrichAcc.warnings, apply_ite EnrichAcc.base,
        ite_self]

/-- Claim C9 counterexample: a parsed result with `p=none`, no rua, ruf or sp,
but strict alignment tags `adkim=s, aspf=s`, scores 1.5, which is not at most
1 as the claim requires. -/
theorem c9_strict_alignment_counterexample :
    (enrichDMARC { p := some "none", adkim := some "s", aspf := some "s" } none).score.value
      = 1.5 ∧
    ¬((1.5 : ℚ) ≤ 1) := by
  constructor
  · simp +decide only [enrichDMARC, jsListTruthy, jsStrTruthy, jsIntOr, jsStrOr]
    norm_num [round1, jsRound_eq_floor]
  · norm_num

/-- Claim C9 as amended: for every parsed DMARC result with `p=none` and rua,
ruf, sp absent, the warnings include the no-protection message and the score
value is at most 1.5 (the strict-alignment bonuses `adkim=s`/`aspf=s` can add
up to 1.0 on top of the 0.5 full-coverage bonus). -/
theorem c9_p_none_low_score (d : DMARCParsed) (mr : Option MailauthResult)
    (hp : d.p = some "none") (hrua : d.rua = none) (hruf : d.ruf = none)
    (hsp : d.sp = none) :
    "Policy \"p=none\" offers no protection. Consider \"quarantine\" or \"reject\"."
        ∈ (enrichDMARC d mr).warnings ∧
    (enrichDMARC d mr).score.value ≤ 1.5 := by
  have hinv := enrichDMARC_verifier_invariant d mr
  rw [hinv.1, hinv.2]
  have hbound : ∀ b : ℚ, b ≤ 3/2 → round1 (max (min b 10) 0) ≤ 1.5 := by
    intro b hb
    have h := round1_clamp10_le b (3/2) 15 hb (by norm_num) (by push_cast; norm_num)
    calc round1 (max (min b 10) 0) ≤ 3/2 := h
    _ = 1.5 := by norm_num
  by_cases hpc : jsIntOr d.pct 100 < 100 <;> by_cases hpc50 : jsIntOr d.pct 100 < 50 <;>
    by_cases hak : d.adkim = some "s" <;> by_cases haf : d.aspf = some "s" <;>
    simp [enrichDMARC, hp, hrua, hruf, hsp, hpc, hpc50, hak, haf,
      jsListTruthy, jsStrTruthy] <;>
    first
      | omega
      | (apply hbound; qify at hpc; linarith)

/-- Witness for claim C9: the amended statement at the concrete parsed result
with only `p=none` set. -/
theorem c9_p_none_low_score_witness :
    "Policy \"p=none\" offers no protection. Consider \"quarantine\" or \"reject\"."
        ∈ (enrichDMARC { p := some "none" } none).warnings ∧
    (enrichDMARC { p := some "none" } none).score.value ≤ 1.5 :=
  c9_p_none_low_score { p := some "none" } none rfl rfl rfl rfl

/-- Rounding zero gives zero. -/
theorem round1_zero : round1 0 = 0 := by
  rw [round1, jsRound_eq_floor]
  norm_num

set_option maxHeartbeats 4000000 in
/-- Claim C2: for every combination of per-protocol results the composite
overall score value equals `(Σ value of succeeded protocols / Σ outOf of
succeeded protocols) × 10` rounded to one decimal; `success=false` results
contribute to neither sum; with zero successes the overall score is 0; and
with DMARC failing but the other three succeeding the overall score is still
computed from the three successes. -/
theorem c2_overall_score_formula :
    (∀ (domain : String) (d : DMARCResult) (s : SPFResult) (k : DKIMResult) (m : MXResult),
      (analyzeEmailSecurity domain (.ok d) (.ok s) (.ok k) (.ok m)).overallScore.value =
        (let succ := ([(d.success, d.score), (s.success, s.score),
                       (k.success, k.score), (m.success, m.score)]).filterMap
            (fun p => if p.1 then p.2 else none)
         let num := (succ.map ScoreBreakdown.value).sum
         let den := (succ.map ScoreBreakdown.outOf).sum
         if 0 < den then round1 (num / den * 10) else 0)) ∧
    (∀ (domain : String) (d : DMARCResult) (s : SPFResult) (k : DKIMResult) (m : MXResult),
      d.success = false → s.success = false → k.success = false → m.success = false →
      (analyzeEmailSecurity domain (.ok d) (.ok s) (.ok k) (.ok m)).overallScore.value = 0) ∧
    (∀ (domain : String) (d : DMARCResult) (s : SPFResult) (k : DKIMResult) (m : MXResult),
      d.success = false →
      (analyzeEmailSecurity domain (.ok d) (.ok s) (.ok k) (.ok m)).overallScore.value =
        (let succ := ([(s.success, s.score), (k.success, k.score),
                       (m.success, m.score)]).filterMap
            (fun p => if p.1 then p.2 else none)
         let num := (succ.map ScoreBreakdown.value).sum
         let den := (succ.map ScoreBreakdown.outOf).sum
         if 0 < den then round1 (num / den * 10) else 0)) := by
  refine ⟨fun domain d s k m => ?_, fun domain d s k m hd hs hk hm => ?_,
    fun domain d s k m hd => ?_⟩
  · cases hd : d.success <;> cases hds : d.score <;>
      cases hs : s.success <;> cases hss : s.score <;>
      cases hk : k.success <;> cases hks : k.score <;>
      cases hm : m.success <;> cases hms : m.score <;>
      simp [analyzeEmailSecurity, settleDMARC, settleSPF, settleDKIM, settleMX,
        hd, hds, hs, hss, hk, hks, hm, hms, apply_ite round1, round1_zero, add_assoc]
  · simp [analyzeEmailSecurity, settleDMARC, settleSPF, settleDKIM, settleMX,
      hd, hs, hk, hm, round1_zero]
  · cases hs : s.success <;> cases hss : s.score <;>
      cases hk : k.success <;> cases hks : k.score <;>
      cases hm : m.success <;> cases hms : m.score <;>
      simp [analyzeEmailSecurity, settleDMARC, settleSPF, settleDKIM, settleMX,
        hd, hs, hss, hk, hks, hm, hms, apply_ite round1, round1_zero, add_assoc]

/-- Witness for claim C2: DMARC failing with SPF 3.5/5, DKIM 5/5, MX 3/3
succeeding gives `round1((3.5+5+3)/(5+5+3)*10)`, and four failures give 0. -/
theorem c2_overall_score_formula_witness :
    (analyzeEmailSecurity "w.example" (.ok { success := false })
        (.ok { success := true, score := some { value := 3.5, outOf := 5, level := "Good" } })
        (.ok { success := true, score := some { value := 5, outOf := 5, level := "Excellent" } })
        (.ok { success := true, score := some { value := 3, outOf := 3, level := "Excellent" } })).overallScore.value
      = round1 ((3.5 + 5 + 3) / (5 + 5 + 3) * 10) ∧
    (analyzeEmailSecurity "w.example" (.ok { success := false }) (.ok { success := false })
        (.ok { success := false }) (.ok { success := false })).overallScore.value = 0 := by
  constructor
  · have h := c2_overall_score_formula.2.2 "w.example" { success := false }
      { success := true, score := some { value := 3.5, outOf := 5, level := "Good" } }
      { success := true, score := some { value := 5, outOf := 5, level := "Excellent" } }
      { success := true, score := some { value := 3, outOf := 3, level := "Excellent" } } rfl
    rw [h]
    norm_num [List.filterMap_cons, List.filterMap_nil]
  · exact c2_overall_score_formula.2.1 "w.example"
      { success := false } { success := false } { success := false } { success := false }
      rfl rfl rfl rfl

/-- Claim C6 counterexample: a thrown verifier call is swallowed and the DMARC
analysis still succeeds (not returned as `success:false`), and a thrown DNS
call in the DKIM analyzer is replaced by the canned selector-not-found message
instead of carrying the underlying error message. -/
theorem c6_verifier_failure_counterexample :
    (analyzeDMARC "example.com" (.ok [["v=DMARC1;p=reject"]]) (.error "dmarc-parse failed")
        (.error "verifier exploded")).success = true ∧
    (analyzeDKIM "example.com" "default" (.error "queryTxt ETIMEOUT") (.ok {})).error
      = some "DKIM record not found for selector 'default'" ∧
    ("DKIM record not found for selector 'default'" : String) ≠ "queryTxt ETIMEOUT" := by
  refine ⟨by decide, by decide, by decide⟩

/-- Claim C6 as amended: record-not-found, parse failure and thrown DNS calls
are caught at the analyzer boundary and returned as `success:false` carrying
the underlying error message (except the DKIM analyzer, which replaces a DNS
failure with its selector-not-found message); a thrown verifier call is caught
internally and the analysis still succeeds without it; and the composite
analyzer never fails: it converts rejected analyzer promises into
`success:false` results carrying the rejection message, with overall score 0
when nothing succeeded. -/
theorem c6_failure_envelopes :
    (∀ (dom e : String) (lib : Except String DMARCParsed) (ver : Except String MailauthResult),
      analyzeDMARC dom (.error e) lib ver =
        { success := false, error := some e, domain := some dom }) ∧
    (∀ (dom e : String) (ver : Except String MailauthResult),
      analyzeSPF dom (.error e) ver =
        { success := false, error := some e, domain := some dom }) ∧
    (∀ (dom e : String), analyzeMX dom (.error e) =
        { success := false, error := some e, domain := some dom }) ∧
    (∀ (dom sel e : String) (ver : Except String MailauthResult),
      analyzeDKIM dom sel (.error e) ver =
        { success := false,
          error := some ("DKIM record not found for selector '" ++ sel ++ "'"),
          domain := some dom, selector := some sel,
          checkedRecord := some (sel ++ "._domainkey." ++ dom),
          recommendations := some
            ["Try common selectors: default, google, mail, dkim, selector1, selector2",
             "Check with your email provider for the correct DKIM selector",
             "Ensure DKIM is properly configured in your DNS"] }) ∧
    (∀ (dom : String) (recs : List (List String)) (lib : Except String DMARCParsed)
        (ver : Except String MailauthResult),
      (recs.map (fun entry => String.join entry)).find?
          (fun txt => jsStartsWith txt "v=DMARC1") = none →
      analyzeDMARC dom (.ok recs) lib ver =
        { success := false, error := some "DMARC record not found",
          domain := some dom, checkedRecord := some ("_dmarc." ++ dom) }) ∧
    (∀ (dom : String) (recs : List (List String)) (lib : Except String DMARCParsed)
        (ver : Except String MailauthResult) (rec msg : String),
      (recs.map (fun entry => String.join entry)).find?
          (fun txt => jsStartsWith txt "v=DMARC1") = some rec →
      parseDMARC lib rec = .error msg →
      analyzeDMARC dom (.ok recs) lib ver =
        { success := false, error := some msg, domain := some dom }) ∧
    (∀ (dom : String) (recs : List (List String)) (lib : Except String DMARCParsed)
        (e rec : String) (p : DMARCParsed),
      (recs.map (fun entry => String.join entry)).find?
          (fun txt => jsStartsWith txt "v=DMARC1") = some rec →
      parseDMARC lib rec = .ok p →
      (analyzeDMARC dom (.ok recs) lib (.error e)).success = true) ∧
    (∀ (dom : String) (recs : List (List String)) (ver : Except String MailauthResult),
      (recs.map (fun entry => String.join entry)).find?
          (fun txt => jsStartsWith txt "v=spf1") = none →
      analyzeSPF dom (.ok recs) ver =
        { success := false, error := some "SPF record not found", domain := some dom,
          recommendations := some
            ["Add an SPF record to your domain to specify which mail servers are authorized to send emails",
             "Example: \"v=spf1 include:_spf.google.com ~all\" for Google Workspace"] }) ∧
    (∀ dom : String, analyzeMX dom (.ok []) =
        { success := false, error := some "No MX records found", domain := some dom,
          recommendations := some
            ["Add MX records to enable email delivery to your domain",
             "MX records specify which mail servers handle email for your domain"] }) ∧
    (∀ dom mD mS mK mM : String,
      (analyzeEmailSecurity dom (.error mD) (.error mS) (.error mK) (.error mM)).dmarc
          = { success := false, error := some mD } ∧
      (analyzeEmailSecurity dom (.error mD) (.error mS) (.error mK) (.error mM)).spf
          = { success := false, error := some mS } ∧
      (analyzeEmailSecurity dom (.error mD) (.error mS) (.error mK) (.error mM)).dkim
          = { success := false, error := some mK } ∧
      (analyzeEmailSecurity dom (.error mD) (.error mS) (.error mK) (.error mM)).mx
          = { success := false, error := some mM } ∧
      (analyzeEmailSecurity dom (.error mD) (.error mS) (.error mK) (.error mM)).overallScore.value
          = 0) := by
  refine ⟨fun dom e lib ver => rfl, fun dom e ver => rfl, fun dom e => rfl,
    fun dom sel e ver => rfl, ?_, ?_, ?_, ?_, fun dom => rfl, ?_⟩
  · intro dom recs lib ver h
    simp [analyzeDMARC, h]
  · intro dom recs lib ver rec msg h1 h2
    simp [analyzeDMARC, h1, h2]
  · intro dom recs lib e rec p h1 h2
    simp [analyzeDMARC, h1, h2]
  · intro dom recs ver h
    simp [analyzeSPF, h]
  · intro dom mD mS mK mM
    refine ⟨rfl, rfl, rfl, rfl, ?_⟩
    simp [analyzeEmailSecurity, settleDMARC, settleSPF, settleDKIM, settleMX, round1_zero]

/-- Witness for claim C6: concrete instances of the hypothesis-bearing parts
(DMARC not-found, DMARC parse failure, DMARC success despite verifier
failure, SPF not-found). -/
theorem c6_failure_envelopes_witness :
    analyzeDMARC "w.example" (.ok [["other txt"]]) (.error "lib") (.error "ver") =
      { success := false, error := some "DMARC record not found",
        domain := some "w.example", checkedRecord := some "_dmarc.w.example" } ∧
    analyzeDMARC "w.example" (.ok [["v=DMARC1;p=reject"]]) (.ok { v := some "BOGUS" })
        (.error "ver") =
      { success := false, error := some "Invalid DMARC record: missing or incorrect version",
        domain := some "w.example" } ∧
    (analyzeDMARC "w.example" (.ok [["v=DMARC1;p=reject"]]) (.error "lib")
        (.error "boom")).success = true ∧
    analyzeSPF "w.example" (.ok [["other txt"]]) (.error "ver") =
      { success := false, error := some "SPF record not found", domain := some "w.example",
        recommendations := some
          ["Add an SPF record to your domain to specify which mail servers are authorized to send emails",
           "Example: \"v=spf1 include:_spf.google.com ~all\" for Google Workspace"] } := by
  refine ⟨?_, ?_, ?_, ?_⟩
  · exact c6_failure_envelopes.2.2.2.2.1 "w.example" [["other txt"]] (.error "lib")
      (.error "ver") (by decide)
  · exact c6_failure_envelopes.2.2.2.2.2.1 "w.example" [["v=DMARC1;p=reject"]]
      (.ok { v := some "BOGUS" }) (.error "ver") "v=DMARC1;p=reject"
      "Invalid DMARC record: missing or incorrect version" (by decide) rfl
  · exact c6_failure_envelopes.2.2.2.2.2.2.1 "w.example" [["v=DMARC1;p=reject"]]
      (.error "lib") "boom" "v=DMARC1;p=reject"
      (customDMARCParse "v=DMARC1;p=reject") (by decide) rfl
  · exact c6_failure_envelopes.2.2.2.2.2.2.2.1 "w.example" [["other txt"]]
      (.error "ver") (by decide)

/-- A split always has at least one group. -/
theorem splitOnChar_ne_nil (sep : Char) (l : List Char) : splitOnChar sep l ≠ [] := by
  cases l with
  | nil => simp [splitOnChar]
  | cons c cs =>
    simp only [splitOnChar]
    rcases h : splitOnChar sep cs with _ | ⟨g, gs⟩
    · simp
    · by_cases hc : c = sep <;> simp [hc]

/-- Taking two from a list with two or more elements. -/
theorem take_two_cons_cons {α : Type} (a b : α) (l : List α) :
    (a :: b :: l).take 2 = [a, b] := rfl

/-- Taking two from a one-element list. -/
theorem take_two_single {α : Type} (a : α) : ([a] : List α).take 2 = [a] := rfl

/-- Characterization of one split step: the first group is the text before
the first separator, and the remaining groups come from the text after it. -/
theorem splitOnChar_eq (sep : Char) (l : List Char) :
    splitOnChar sep l =
      l.takeWhile (fun c => c ≠ sep) ::
        (if sep ∈ l then splitOnChar sep ((l.dropWhile (fun c => c ≠ sep)).tail) else []) := by
  induction l with
  | nil => simp [splitOnChar]
  | cons c cs ih =>
    by_cases hc : c = sep
    · subst hc
      simp only [splitOnChar]
      rw [ih]
      simp [List.takeWhile_cons, List.dropWhile_cons, ih]
    · have hc2 : ¬sep = c := fun h => hc h.symm
      simp only [splitOnChar]
      rw [ih]
      simp [hc, hc2, List.takeWhile_cons, List.dropWhile_cons]

/-- The segment step of the embedded parser coincides with the reference
segment step of the amended claim C4 description. -/
theorem dmarcTagStep_eq_ref (acc : DMARCParsed) (part : List Char) :
    dmarcTagStep acc part = refDMARCTagStep acc part := by
  unfold dmarcTagStep refDMARCTagStep
  rw [splitOnChar_eq]
  by_cases hm : '=' ∈ part
  · rw [if_pos hm, splitOnChar_eq, take_two_cons_cons]
  · rw [if_neg hm, take_two_single]
    have hdrop : part.dropWhile (fun c => c ≠ '=') = [] :=
      List.dropWhile_eq_nil_iff.mpr (fun c hc => by
        simp only [ne_eq, decide_not, Bool.not_eq_true', decide_eq_false_iff_not]
        exact fun h => hm (h ▸ hc))
    rw [hdrop]
    simp

/-- Claim C4 counterexample: in `v=DMARC1;Foo=a=b` the unknown tag is stored
as `("Foo", "a")`: the value is truncated at the second `=` (JavaScript
`split('=', 2)` discards the remainder instead of keeping it) and the key
keeps its original case instead of being lower-cased. -/
theorem c4_split_limit_counterexample :
    (customDMARCParse "v=DMARC1;Foo=a=b").other = [("Foo", "a")] ∧
    (customDMARCParse "v=DMARC1;Foo=a=b").other ≠ [("foo", "a=b")] := by
  exact ⟨by decide, by decide⟩

/-- Claim C4 as amended: for every raw record the hand-written fallback parser
strips all whitespace, splits on `;`, discards empty segments, takes the key
and value as the first two `=`-separated fields of each segment (so the value
is the text between the first and second `=`, and anything after a second `=`
is discarded), dispatches on the lower-cased key for the known tags, and
stores any other key with its original case. -/
theorem c4_parser_follows_amended_description (record : String) :
    customDMARCParse record = refCustomDMARCParse record := by
  unfold customDMARCParse refCustomDMARCParse
  have hfil : (splitOnChar ';' (stripWs record.toList)).filter (fun p => p.length > 0)
      = (splitOnChar ';' (stripWs record.toList)).filter (fun p => p ≠ []) := by
    apply List.filter_congr
    intro x _
    cases x <;> simp
  rw [hfil,
    show dmarcTagStep = refDMARCTagStep from
      funext fun acc => funext fun part => dmarcTagStep_eq_ref acc part]

/-- Splitting a list without the separator yields that single group. -/
theorem splitOnChar_not_mem (sep : Char) (l : List Char) (h : sep ∉ l) :
    splitOnChar sep l = [l] := by
  induction l with
  | nil => rfl
  | cons c cs ih =>
    simp only [List.mem_cons, not_or] at h
    simp only [splitOnChar, ih h.2]
    simp [show ¬c = sep from fun hh => h.1 hh.symm]

/-- Splitting at an explicit separator occurrence peels off the prefix. -/
theorem splitOnChar_append_sep (sep : Char) (l r : List Char) (h : sep ∉ l) :
    splitOnChar sep (l ++ sep :: r) = l :: splitOnChar sep r := by
  induction l with
  | nil =>
    rcases hr : splitOnChar sep r with _ | ⟨g, gs⟩
    · exact absurd hr (splitOnChar_ne_nil sep r)
    · simp [splitOnChar, hr]
  | cons c cs ih =>
    simp only [List.mem_cons, not_or] at h
    rw [show ((c :: cs) ++ sep :: r : List Char) = c :: (cs ++ sep :: r) from rfl]
    simp only [splitOnChar]
    rw [ih h.2]
    simp [show ¬c = sep from fun hh => h.1 hh.symm]

/-- The character list underlying a constructed string. -/
theorem toList_mk (l : List Char) : (String.mk l).toList = l := rfl

/-- Parsing `v=DMARC1;<body>` reduces to one segment step on `<body>` over the
accumulator that already holds the version tag, for any separator-free and
whitespace-free body. -/
theorem customDMARCParse_vtag (body : List Char)
    (hws : ∀ c ∈ body, jsWhitespace c = false) (hsem : ';' ∉ body) :
    customDMARCParse (String.mk ("v=DMARC1;".toList ++ body)) =
      dmarcTagStep { v := some "DMARC1" } body := by
  unfold customDMARCParse
  have hstrip : stripWs ("v=DMARC1;".toList ++ body) = "v=DMARC1;".toList ++ body := by
    have h1 : List.filter (fun c => !jsWhitespace c) "v=DMARC1;".toList
        = "v=DMARC1;".toList := by decide
    have h2 : List.filter (fun c => !jsWhitespace c) body = body :=
      List.filter_eq_self.mpr (fun c hc => by simp [hws c hc])
    unfold stripWs
    rw [List.filter_append, h1, h2]
  rw [toList_mk, hstrip,
    show "v=DMARC1;".toList ++ body = "v=DMARC1".toList ++ ';' :: body from rfl,
    splitOnChar_append_sep ';' "v=DMARC1".toList body (by decide),
    splitOnChar_not_mem ';' body hsem]
  cases body with
  | nil => decide
  | cons b bs =>
    have hfl : (["v=DMARC1".toList, b :: bs] : List (List Char)).filter
        (fun p => p.length > 0) = ["v=DMARC1".toList, b :: bs] := by
      have h8 : ("v=DMARC1".toList).length > 0 := by decide
      simp [List.filter, h8]
    rw [hfl]
    simp only [List.foldl_cons, List.foldl_nil]
    rw [show dmarcTagStep {} ("v=DMARC1".toList) = { v := some "DMARC1" } from by decide]

/-- The segment step on a `pct=<value>` segment stores
`parseInt(value) || 100`. -/
theorem dmarcTagStep_pct_tag (acc : DMARCParsed) (cs : List Char) (heq : '=' ∉ cs)
    (hne : cs ≠ []) :
    dmarcTagStep acc ("pct=".toList ++ cs) =
      { acc with pct := some (jsIntOr (jsParseInt (String.mk cs)) 100) } := by
  have hsplit : splitOnChar '=' ("pct=".toList ++ cs) = [['p', 'c', 't'], cs] := by
    have h1 := splitOnChar_append_sep '=' ['p', 'c', 't'] cs (by decide)
    rw [splitOnChar_not_mem '=' cs heq] at h1
    exact h1
  unfold dmarcTagStep
  rw [hsplit, take_two_cons_cons]
  dsimp only
  rw [if_pos ⟨by decide, fun h => hne (congrArg String.data h)⟩,
    show ({ data := List.map Char.toLower ['p', 'c', 't'] } : String) = "pct" from by decide]
  rfl

/-- The segment step on a `ri=<value>` segment stores
`parseInt(value) || 86400`. -/
theorem dmarcTagStep_ri_tag (acc : DMARCParsed) (cs : List Char) (heq : '=' ∉ cs)
    (hne : cs ≠ []) :
    dmarcTagStep acc ("ri=".toList ++ cs) =
      { acc with ri := some (jsIntOr (jsParseInt (String.mk cs)) 86400) } := by
  have hsplit : splitOnChar '=' ("ri=".toList ++ cs) = [['r', 'i'], cs] := by
    have h1 := splitOnChar_append_sep '=' ['r', 'i'] cs (by decide)
    rw [splitOnChar_not_mem '=' cs heq] at h1
    exact h1
  unfold dmarcTagStep
  rw [hsplit, take_two_cons_cons]
  dsimp only
  rw [if_pos ⟨by decide, fun h => hne (congrArg String.data h)⟩,
    show ({ data := List.map Char.toLower ['r', 'i'] } : String) = "ri" from by decide]
  rfl

/-- Claim C5: for every DMARC record whose `pct` tag value is a valid
percentage (an integer in [0,100]) the parsed `pct` lies in [0,100], for
every record whose `ri` tag value is a valid non-negative integer the parsed
`ri` is positive, and a `pct`/`ri` tag value that is unparseable as an
integer defaults to 100/86400 respectively.  Tag values are quantified as
whitespace-, `;`- and `=`-free character lists, which covers every value a
real tag can carry. -/
theorem c5_pct_ri_ranges_and_defaults :
    (∀ (cs : List Char) (n : ℤ),
      (∀ c ∈ cs, jsWhitespace c = false ∧ c ≠ ';' ∧ c ≠ '=') →
      jsParseInt (String.mk cs) = some n → 0 ≤ n → n ≤ 100 →
      ∃ m, (customDMARCParse (String.mk ("v=DMARC1;pct=".toList ++ cs))).pct = some m ∧
        0 ≤ m ∧ m ≤ 100) ∧
    (∀ (cs : List Char) (n : ℤ),
      (∀ c ∈ cs, jsWhitespace c = false ∧ c ≠ ';' ∧ c ≠ '=') →
      jsParseInt (String.mk cs) = some n → 0 ≤ n →
      ∃ m, (customDMARCParse (String.mk ("v=DMARC1;ri=".toList ++ cs))).ri = some m ∧
        0 < m) ∧
    (∀ cs : List Char,
      (∀ c ∈ cs, jsWhitespace c = false ∧ c ≠ ';' ∧ c ≠ '=') → cs ≠ [] →
      jsParseInt (String.mk cs) = none →
      (customDMARCParse (String.mk ("v=DMARC1;pct=".toList ++ cs))).pct = some 100) ∧
    (∀ cs : List Char,
      (∀ c ∈ cs, jsWhitespace c = false ∧ c ≠ ';' ∧ c ≠ '=') → cs ≠ [] →
      jsParseInt (String.mk cs) = none →
      (customDMARCParse (String.mk ("v=DMARC1;ri=".toList ++ cs))).ri = some 86400) := by
  have hpre : ∀ (pre : List Char) (cs : List Char),
      (∀ c ∈ pre, jsWhitespace c = false ∧ c ≠ ';') →
      (∀ c ∈ cs, jsWhitespace c = false ∧ c ≠ ';' ∧ c ≠ '=') →
      (∀ c ∈ pre ++ cs, jsWhitespace c = false) ∧ ';' ∉ pre ++ cs := by
    intro pre cs hpm hcs
    constructor
    · intro c hc
      rcases List.mem_append.mp hc with h | h
      · exact (hpm c h).1
      · exact (hcs c h).1
    · intro hmem
      rcases List.mem_append.mp hmem with h | h
      · exact (hpm ';' h).2 rfl
      · exact (hcs ';' h).2.1 rfl
  have hpct : ∀ cs : List Char,
      (∀ c ∈ cs, jsWhitespace c = false ∧ c ≠ ';' ∧ c ≠ '=') → cs ≠ [] →
      (customDMARCParse (String.mk ("v=DMARC1;pct=".toList ++ cs))).pct =
        some (jsIntOr (jsParseInt (String.mk cs)) 100) := by
    intro cs hcs hne
    have h := hpre "pct=".toList cs (by intro c hc; fin_cases hc <;> exact ⟨by decide, by decide⟩) hcs
    have hv := customDMARCParse_vtag ("pct=".toList ++ cs) h.1 h.2
    rw [show String.mk ("v=DMARC1;pct=".toList ++ cs)
        = String.mk ("v=DMARC1;".toList ++ ("pct=".toList ++ cs)) from rfl, hv,
      dmarcTagStep_pct_tag _ cs (fun hm => (hcs '=' hm).2.2 rfl) hne]
  have hri : ∀ cs : List Char,
      (∀ c ∈ cs, jsWhitespace c = false ∧ c ≠ ';' ∧ c ≠ '=') → cs ≠ [] →
      (customDMARCParse (String.mk ("v=DMARC1;ri=".toList ++ cs))).ri =
        some (jsIntOr (jsParseInt (String.mk cs)) 86400) := by
    intro cs hcs hne
    have h := hpre "ri=".toList cs (by intro c hc; fin_cases hc <;> exact ⟨by decide, by decide⟩) hcs
    have hv := customDMARCParse_vtag ("ri=".toList ++ cs) h.1 h.2
    rw [show String.mk ("v=DMARC1;ri=".toList ++ cs)
        = String.mk ("v=DMARC1;".toList ++ ("ri=".toList ++ cs)) from rfl, hv,
      dmarcTagStep_ri_tag _ cs (fun hm => (hcs '=' hm).2.2 rfl) hne]
  have hnil : ∀ (cs : List Char) (n : ℤ), jsParseInt (String.mk cs) = some n → cs ≠ [] := by
    intro cs n hp hnil
    subst hnil
    rw [show jsParseInt (String.mk []) = none from by decide] at hp
    exact Option.noConfusion hp
  refine ⟨?_, ?_, ?_, ?_⟩
  · intro cs n hcs hparse h0 h100
    refine ⟨jsIntOr (jsParseInt (String.mk cs)) 100, hpct cs hcs (hnil cs n hparse), ?_, ?_⟩ <;>
      rw [hparse] <;> simp only [jsIntOr] <;> split_ifs with hn <;> omega
  · intro cs n hcs hparse h0
    refine ⟨jsIntOr (jsParseInt (String.mk cs)) 86400, hri cs hcs (hnil cs n hparse), ?_⟩
    rw [hparse]
    simp only [jsIntOr]
    split_ifs with hn <;> omega
  · intro cs hcs hne hparse
    rw [hpct cs hcs hne, hparse]
    rfl
  · intro cs hcs hne hparse
    rw [hri cs hcs hne, hparse]
    rfl

/-- Witness for claim C5: `pct=50`, `ri=3600`, and the unparseable values
`pct=abc`, `ri=abc`. -/
theorem c5_pct_ri_ranges_and_defaults_witness :
    (∃ m, (customDMARCParse (String.mk ("v=DMARC1;pct=".toList ++ "50".toList))).pct
        = some m ∧ 0 ≤ m ∧ m ≤ 100) ∧
    (∃ m, (customDMARCParse (String.mk ("v=DMARC1;ri=".toList ++ "3600".toList))).ri
        = some m ∧ 0 < m) ∧
    (customDMARCParse (String.mk ("v=DMARC1;pct=".toList ++ "abc".toList))).pct = some 100 ∧
    (customDMARCParse (String.mk ("v=DMARC1;ri=".toList ++ "abc".toList))).ri = some 86400 :=
  ⟨c5_pct_ri_ranges_and_defaults.1 "50".toList 50 (by decide) (by decide) (by decide)
      (by decide),
   c5_pct_ri_ranges_and_defaults.2.1 "3600".toList 3600 (by decide) (by decide) (by decide),
   c5_pct_ri_ranges_and_defaults.2.2.1 "abc".toList (by decide) (by decide) (by decide),
   c5_pct_ri_ranges_and_defaults.2.2.2 "abc".toList (by decide) (by decide) (by decide)⟩
